import Mathlib

/-!
Shallow embedding of `src/routes/auth.ts` of api-hellasshipping: the two
Fastify handlers `POST /login` and `POST /users`, over a user store
(Supabase `users` table), a bcrypt hash/compare primitive, and a JWT
token issued into the response body and an `auth_token` cookie.

The store, hashing primitive and token signer are external collaborators;
they are modelled from the spec (see the doc comments), while the two
handlers are translated line by line from `auth.ts`.
-/

/-- A row of the `users` table: `id` (opaque unique identifier; modelled as
`Nat`), optional `name`, `email`, and `password` (which holds the bcrypt
hash, as in the code where the column is called `password`). -/
structure User where
  id : Nat
  name : Option String
  email : String
  password : String
  deriving Repr, DecidableEq

/-- The result shape of a Supabase `.single()` call: `data` and `error`
fields, as destructured by the handlers. -/
structure SupaSingle (α : Type) where
  data : Option α
  error : Option String
  deriving Repr, DecidableEq

/-- Modelled from the spec: the user store is an external collaborator
("a table of user records"); a store state is the list of its rows. -/
def Store : Type := List User

/-- Modelled from the spec: `.from('users').select(...).eq('email', e).single()`.
`.single()` yields the row and no error when exactly one row matches, and a
null `data` with an error otherwise (no rows, or more than one row). -/
def selectSingleByEmail (store : List User) (e : String) : SupaSingle User :=
  match store.filter (fun u => u.email == e) with
  | [u] => ⟨some u, none⟩
  | [] => ⟨none, some "PGRST116: zero rows returned"⟩
  | _ => ⟨none, some "PGRST116: more than one row returned"⟩

/-- Modelled from the spec: `bcryptjs.hash(p, 8)` (external primitive,
"hash-with-cost-factor primitive; cost factor fixed"), idealized as an
injective tagged encoding so the round-trip laws of the spec hold. -/
def hashPw (p : String) : String :=
  "$2a$08$" ++ p

/-- Modelled from the spec: `bcryptjs.compare(p, h)` (external
constant-time comparator): `p` matches `h` exactly when `h` is the hash
of `p`. -/
def comparePw (p h : String) : Bool :=
  h == "$2a$08$" ++ p

/-- Modelled from the spec: `.from('users').insert({name, email, password})
.select('id').single()`. The store enforces email uniqueness ("creation
fails if a row with that email exists"); on success it assigns a fresh id
and appends the row, returning the new id. -/
def freshId (store : List User) : Nat :=
  (store.map (fun u => u.id)).foldr max 0 + 1

/-- Modelled from the spec: the insert half of `register`; returns the
Supabase result (new id or error) together with the store after the call. -/
def insertUser (store : List User) (name : Option String) (email pwHash : String) :
    SupaSingle Nat × List User :=
  if store.any (fun u => u.email == email) then
    (⟨none, some "duplicate key value violates unique constraint"⟩, store)
  else
    (⟨some (freshId store), none⟩, store ++ [⟨freshId store, name, email, pwHash⟩])

/-- The signed JWT of `reply.jwtSign({ userId: user.id }, { sign: { expiresIn: '7d' } })`:
a payload bound to the user id with an expiry in seconds (`'7d'`). -/
structure SignedToken where
  userId : Nat
  expiresInSeconds : Nat
  deriving Repr, DecidableEq

/-- `reply.jwtSign` — Modelled from the spec: the token issuer
"signs bearer tokens with an expiry". -/
def jwtSign (userId expiresInSeconds : Nat) : SignedToken :=
  ⟨userId, expiresInSeconds⟩

/-- Decoding the signed payload of a token recovers the user id. -/
def decodeUserId (t : SignedToken) : Nat :=
  t.userId

/-- The seconds denoted by the `expiresIn: '7d'` option. -/
def sevenDaysSeconds : Nat := 7 * 24 * 60 * 60

/-- One `reply.setCookie('auth_token', token, {...})` call with its options. -/
structure SetCookie where
  name : String
  token : SignedToken
  path : String
  httpOnly : Bool
  secure : Bool
  maxAge : Nat
  deriving Repr, DecidableEq

/-- The body of a `POST /login` response: `{message, token}` on 200,
`{message}` on 401 (the declared Zod response schemas). -/
inductive LoginBody where
  | ok (message : String) (token : SignedToken)
  | err (message : String)
  deriving Repr, DecidableEq

/-- A full `POST /login` response: status, body, and the cookies set. -/
structure LoginResponse where
  status : Nat
  body : LoginBody
  cookies : List SetCookie
  deriving Repr, DecidableEq

/-- The `POST /login` handler of `auth.ts`, translated line by line.
`production` is `process.env.NODE_ENV === 'production'`. The store is
returned alongside the response to make the handler's (absent) effect on
it explicit. -/
def login (production : Bool) (store : List User) (email password : String) :
    LoginResponse × List User :=
  let r := selectSingleByEmail store email
  match r.error, r.data with
  | none, some user =>
      let passwordMatch := comparePw password user.password
      if !passwordMatch then
        (⟨401, .err "Invalid credentials.", []⟩, store)
      else
        let token := jwtSign user.id sevenDaysSeconds
        (⟨200, .ok "Login successful" token,
          [⟨"auth_token", token, "/", true, production, 60 * 60 * 24 * 7⟩]⟩, store)
  | _, _ =>
      (⟨401, .err "Invalid credentials or user not found.", []⟩, store)

/-- The body of a `POST /users` response: `{userId}` on 201, `{message}`
on 409 (the declared Zod response schemas). -/
inductive RegisterBody where
  | created (userId : Nat)
  | err (message : String)
  deriving Repr, DecidableEq

/-- A full `POST /users` response. -/
structure RegisterResponse where
  status : Nat
  body : RegisterBody
  deriving Repr, DecidableEq

/-- The body of the `POST /users` handler after the duplicate-check lookup
has returned: the handler destructures only `data: existingUser` from the
lookup result, so the whole `SupaSingle` is taken here and the `error`
field is visibly dropped by the `match` on `.data`. -/
def registerCore (lookup : SupaSingle User) (store : List User)
    (name : Option String) (email password : String) :
    RegisterResponse × List User :=
  match lookup.data with
  | some _ =>
      (⟨409, .err "User with this email already exists."⟩, store)
  | none =>
      let password_hash := hashPw password
      let ins := insertUser store name email password_hash
      match ins.1.error, ins.1.data with
      | none, some id => (⟨201, .created id⟩, ins.2)
      | _, _ => (⟨409, .err "Failed to create user."⟩, ins.2)

/-- The `POST /users` handler of `auth.ts`: duplicate-check lookup by
email, then `registerCore`. -/
def register (store : List User) (name : Option String) (email password : String) :
    RegisterResponse × List User :=
  registerCore (selectSingleByEmail store email) store name email password

/-- The fixed response messages of `auth.ts`; every `message` field of
every response is one of these literals. -/
def fixedMessages : List String :=
  ["Login successful", "Invalid credentials or user not found.",
   "Invalid credentials.", "User with this email already exists.",
   "Failed to create user."]

/-- The `message` field of a login response body. -/
def loginBodyMessage : LoginBody → String
  | .ok m _ => m
  | .err m => m

/-- The string fields of a register response body (a 201 body carries only
the id). -/
def registerBodyStrings : RegisterBody → List String
  | .created _ => []
  | .err m => [m]

/-! ### Helper lemmas about the store operations -/

theorem hashPw_inj (p q : String) (h : hashPw p = hashPw q) : p = q := by
  unfold hashPw at h
  have h2 := congrArg String.data h
  simp [String.data_append] at h2
  exact String.ext h2

theorem hashPw_head (q : String) : (hashPw q).data.head? = some '$' := by
  simp [hashPw, String.data_append]

theorem comparePw_hash_self (p : String) : comparePw p (hashPw p) = true := by
  simp [comparePw, hashPw]

theorem comparePw_hash_ne (p q : String) (h : q ≠ p) :
    comparePw q (hashPw p) = false := by
  simp only [comparePw, hashPw, beq_eq_false_iff_ne, ne_eq]
  intro heq
  exact h (hashPw_inj q p heq.symm)

theorem filter_email_nil (store : List User) (e : String)
    (h : ∀ u ∈ store, u.email ≠ e) :
    store.filter (fun u => u.email == e) = [] := by
  rw [List.filter_eq_nil_iff]
  intro u hu
  simpa using h u hu

theorem any_email_false (store : List User) (e : String)
    (h : ∀ u ∈ store, u.email ≠ e) :
    store.any (fun u => u.email == e) = false := by
  rw [List.any_eq_false]
  intro u hu
  simpa using h u hu

theorem filter_email_singleton (store : List User) (u : User) (e : String)
    (hnd : (store.map (fun v => v.email)).Nodup)
    (hu : u ∈ store) (he : u.email = e) :
    store.filter (fun v => v.email == e) = [u] := by
  induction store with
  | nil => simp at hu
  | cons v vs ih =>
    simp only [List.map_cons, List.nodup_cons] at hnd
    rcases List.mem_cons.mp hu with rfl | hmem
    · have hnone : vs.filter (fun w => w.email == e) = [] := by
        rw [List.filter_eq_nil_iff]
        intro w hw hwe
        exact hnd.1 (he ▸ (by simpa using hwe) ▸ List.mem_map_of_mem (fun x => x.email) hw)
      simp [List.filter_cons, he, hnone]
    · have hv : v.email ≠ e := by
        intro hveq
        exact hnd.1 (hveq ▸ he ▸ List.mem_map_of_mem (fun x => x.email) hmem)
      simp [List.filter_cons, hv, ih hnd.2 hmem]

theorem select_of_filter_nil (store : List User) (e : String)
    (h : store.filter (fun u => u.email == e) = []) :
    selectSingleByEmail store e = ⟨none, some "PGRST116: zero rows returned"⟩ := by
  unfold selectSingleByEmail
  rw [h]

theorem select_of_filter_singleton (store : List User) (u : User) (e : String)
    (h : store.filter (fun v => v.email == e) = [u]) :
    selectSingleByEmail store e = ⟨some u, none⟩ := by
  unfold selectSingleByEmail
  rw [h]

theorem login_cases (production : Bool) (store : List User) (email password : String) :
    (login production store email password).1 =
      ⟨401, .err "Invalid credentials or user not found.", []⟩ ∨
    (login production store email password).1 =
      ⟨401, .err "Invalid credentials.", []⟩ ∨
    ∃ u : User,
      (login production store email password).1 =
        ⟨200, .ok "Login successful" (jwtSign u.id sevenDaysSeconds),
          [⟨"auth_token", jwtSign u.id sevenDaysSeconds, "/", true, production,
            60 * 60 * 24 * 7⟩]⟩ := by
  unfold login
  rcases h : selectSingleByEmail store email with ⟨data, error⟩
  cases error <;> cases data <;> simp
  rcases hc : comparePw password _ with _ | _
  · simp [hc]
  · simp [hc]
    exact ⟨_, rfl⟩

theorem register_cases (store : List User) (name : Option String) (email password : String) :
    (register store name email password).1.body =
      .err "User with this email already exists." ∨
    (register store name email password).1.body = .err "Failed to create user." ∨
    (register store name email password).1.body = .created (freshId store) := by
  unfold register registerCore
  rcases selectSingleByEmail store email with ⟨data, error⟩
  cases data <;> simp
  unfold insertUser
  by_cases hany : store.any (fun u => u.email == email) = true <;> simp [hany]

theorem hashPw_not_fixed_message (q : String) : hashPw q ∉ fixedMessages := by
  intro hq
  have hh := hashPw_head q
  simp only [fixedMessages, List.mem_cons, List.not_mem_nil, or_false] at hq
  rcases hq with h | h | h | h | h
  · rw [h] at hh; exact absurd hh (by decide)
  · rw [h] at hh; exact absurd hh (by decide)
  · rw [h] at hh; exact absurd hh (by decide)
  · rw [h] at hh; exact absurd hh (by decide)
  · rw [h] at hh; exact absurd hh (by decide)

/-! ### Claim theorems -/

/-- C1: for a fresh email (no row with that email) and a valid password,
`register` returns 201 with the newly assigned id, appends exactly one row
holding the optional name, the email and the hash of the password, and a
subsequent `login` with those exact credentials succeeds with status 200. -/
theorem register_fresh_ok (production : Bool) (store : List User) (name : Option String)
    (email password : String)
    (hfresh : ∀ u ∈ store, u.email ≠ email) (hvalid : 6 ≤ password.length) :
    (register store name email password).1 = ⟨201, .created (freshId store)⟩ ∧
    (register store name email password).2 =
      store ++ [⟨freshId store, name, email, hashPw password⟩] ∧
    (login production (register store name email password).2 email password).1.status
      = 200 := by
  have hsel := select_of_filter_nil store email (filter_email_nil store email hfresh)
  have hany := any_email_false store email hfresh
  have hreg : register store name email password =
      (⟨201, .created (freshId store)⟩,
        store ++ [⟨freshId store, name, email, hashPw password⟩]) := by
    simp [register, registerCore, hsel, insertUser, hany]
  refine ⟨by rw [hreg], by rw [hreg], ?_⟩
  rw [hreg]
  have hfil : (store ++ [(⟨freshId store, name, email, hashPw password⟩ : User)]).filter
      (fun v => v.email == email) = [(⟨freshId store, name, email, hashPw password⟩ : User)] := by
    rw [List.filter_append, filter_email_nil store email hfresh]
    simp
  have hsel2 := select_of_filter_singleton _ _ _ hfil
  simp [login, hsel2, comparePw_hash_self]

/-- C1 witness: registering `a@x.com` with password `secret1` in the empty
store creates the row and logging in with the same credentials gives 200. -/
theorem register_fresh_ok_witness :
    (register [] none "a@x.com" "secret1").1 = ⟨201, .created (freshId [])⟩ ∧
    (register [] none "a@x.com" "secret1").2 =
      [] ++ [(⟨freshId [], none, "a@x.com", hashPw "secret1"⟩ : User)] ∧
    (login false (register [] none "a@x.com" "secret1").2 "a@x.com" "secret1").1.status
      = 200 :=
  register_fresh_ok false [] none "a@x.com" "secret1" (by simp) (by decide)

/-- C2: for an email with no matching row, `login` responds 401 with the
no-user message, no token and no cookie, and the whole response is the
same whatever password is supplied. -/
theorem login_unknown_email (production : Bool) (store : List User)
    (email password : String) (hfresh : ∀ u ∈ store, u.email ≠ email) :
    (login production store email password).1 =
      ⟨401, .err "Invalid credentials or user not found.", []⟩ ∧
    ∀ p2 : String, (login production store email password).1 =
      (login production store email p2).1 := by
  have hsel := select_of_filter_nil store email (filter_email_nil store email hfresh)
  constructor
  · simp [login, hsel]
  · intro p2
    simp [login, hsel]

/-- C2 witness: logging in as the unregistered `b@x.com` gives the 401
response for any password. -/
theorem login_unknown_email_witness :
    (login false [(⟨1, none, "a@x.com", hashPw "secret1"⟩ : User)] "b@x.com" "secret1").1 =
      ⟨401, .err "Invalid credentials or user not found.", []⟩ ∧
    ∀ p2 : String,
      (login false [(⟨1, none, "a@x.com", hashPw "secret1"⟩ : User)] "b@x.com" "secret1").1 =
      (login false [(⟨1, none, "a@x.com", hashPw "secret1"⟩ : User)] "b@x.com" p2).1 :=
  login_unknown_email false _ "b@x.com" "secret1" (by decide)

/-- C3: for a registered user (their row is the unique match for the email)
and a password whose comparison against the stored hash fails, `login`
responds 401 with the invalid-credentials message, no token in the body
and no cookie set. -/
theorem login_wrong_password (production : Bool) (store : List User) (u : User)
    (email password : String)
    (hone : store.filter (fun v => v.email == email) = [u])
    (hmismatch : comparePw password u.password = false) :
    (login production store email password).1 =
      ⟨401, .err "Invalid credentials.", []⟩ := by
  have hsel := select_of_filter_singleton store u email hone
  simp [login, hsel, hmismatch]

/-- C3 witness: logging in as `a@x.com` with the wrong password `wrong12`
gives 401, no token, no cookie. -/
theorem login_wrong_password_witness :
    (login false [(⟨1, none, "a@x.com", hashPw "secret1"⟩ : User)] "a@x.com" "wrong12").1 =
      ⟨401, .err "Invalid credentials.", []⟩ :=
  login_wrong_password false _ ⟨1, none, "a@x.com", hashPw "secret1"⟩ "a@x.com" "wrong12"
    (by decide) (by decide)

/-- C4: for a registered user and the correct password, `login` responds
200 with a signed token whose payload decodes to the user's id and whose
expiry is 7 days (604800 seconds), and sets it as an `HttpOnly` cookie at
path `/` whose max-age (604800 seconds) matches that expiry. -/
theorem login_correct_password (production : Bool) (store : List User) (u : User)
    (email password : String)
    (hone : store.filter (fun v => v.email == email) = [u])
    (hmatch : comparePw password u.password = true) :
    (login production store email password).1 =
      ⟨200, .ok "Login successful" (jwtSign u.id sevenDaysSeconds),
        [⟨"auth_token", jwtSign u.id sevenDaysSeconds, "/", true, production,
          60 * 60 * 24 * 7⟩]⟩ ∧
    decodeUserId (jwtSign u.id sevenDaysSeconds) = u.id ∧
    (jwtSign u.id sevenDaysSeconds).expiresInSeconds = 604800 ∧
    (60 * 60 * 24 * 7 : Nat) = 604800 := by
  have hsel := select_of_filter_singleton store u email hone
  refine ⟨by simp [login, hsel, hmatch], rfl, rfl, rfl⟩

/-- C4 witness: logging in as `a@x.com` with the correct password gives
200, a token for user 1 expiring in 604800 seconds, and the matching
`HttpOnly` cookie. -/
theorem login_correct_password_witness :
    (login false [(⟨1, none, "a@x.com", hashPw "secret1"⟩ : User)] "a@x.com" "secret1").1 =
      ⟨200, .ok "Login successful" (jwtSign 1 sevenDaysSeconds),
        [⟨"auth_token", jwtSign 1 sevenDaysSeconds, "/", true, false,
          60 * 60 * 24 * 7⟩]⟩ ∧
    decodeUserId (jwtSign 1 sevenDaysSeconds) = 1 ∧
    (jwtSign 1 sevenDaysSeconds).expiresInSeconds = 604800 ∧
    (60 * 60 * 24 * 7 : Nat) = 604800 :=
  login_correct_password false _ ⟨1, none, "a@x.com", hashPw "secret1"⟩ "a@x.com" "secret1"
    (by decide) (by decide)

/-- C5: when the store's emails are distinct (the uniqueness invariant the
store enforces) and some row already has the requested email, `register`
responds 409 `DuplicateUser` and returns the store unchanged. -/
theorem register_duplicate_rejected (store : List User) (u : User) (name : Option String)
    (email password : String)
    (hnd : (store.map (fun v => v.email)).Nodup)
    (hu : u ∈ store) (he : u.email = email) :
    register store name email password =
      (⟨409, .err "User with this email already exists."⟩, store) := by
  have hsel := select_of_filter_singleton store u email
    (filter_email_singleton store u email hnd hu he)
  simp [register, registerCore, hsel]

/-- C5 witness: registering `a@x.com` again in a store that already holds
that email gives 409 and leaves the store as it was. -/
theorem register_duplicate_rejected_witness :
    register [(⟨1, none, "a@x.com", hashPw "secret1"⟩ : User)] none "a@x.com" "other99" =
      (⟨409, .err "User with this email already exists."⟩,
        [(⟨1, none, "a@x.com", hashPw "secret1"⟩ : User)]) :=
  register_duplicate_rejected _ ⟨1, none, "a@x.com", hashPw "secret1"⟩ none "a@x.com"
    "other99" (by decide) (by decide) rfl

/-- C6 counterexample: on a concrete store, the unknown-email failure and
the wrong-password failure carry the same 401 status but different bodies
(`"Invalid credentials or user not found."` vs `"Invalid credentials."`),
so the two responses are not identical as the claim states. -/
theorem login_failure_bodies_differ_cex :
    (login false [⟨1, none, "a@x.com", hashPw "secret1"⟩] "b@x.com" "secret1").1.status =
      (login false [⟨1, none, "a@x.com", hashPw "secret1"⟩] "a@x.com" "wrong12").1.status ∧
    (login false [⟨1, none, "a@x.com", hashPw "secret1"⟩] "b@x.com" "secret1").1.body ≠
      (login false [⟨1, none, "a@x.com", hashPw "secret1"⟩] "a@x.com" "wrong12").1.body := by
  decide

/-- C6 amended: both login failure cases respond with the same 401 status,
no token and no cookie, but the body messages differ: the no-row case says
`"Invalid credentials or user not found."` while the wrong-password case
says `"Invalid credentials."`. -/
theorem login_merged_status_distinct_messages
    (production : Bool) (store1 store2 : List User) (u : User) (e1 p1 e2 p2 : String)
    (hnone : store1.filter (fun v => v.email == e1) = [])
    (hone : store2.filter (fun v => v.email == e2) = [u])
    (hmismatch : comparePw p2 u.password = false) :
    (login production store1 e1 p1).1.status = 401 ∧
    (login production store2 e2 p2).1.status = 401 ∧
    (login production store1 e1 p1).1.cookies = [] ∧
    (login production store2 e2 p2).1.cookies = [] ∧
    (login production store1 e1 p1).1.body =
      .err "Invalid credentials or user not found." ∧
    (login production store2 e2 p2).1.body = .err "Invalid credentials." := by
  have hs1 := select_of_filter_nil store1 e1 hnone
  have hs2 := select_of_filter_singleton store2 u e2 hone
  refine ⟨?_, ?_, ?_, ?_, ?_, ?_⟩ <;> simp [login, hs1, hs2, hmismatch]

/-- C6 amended witness: the two failure cases on a concrete store share
status 401 and empty cookies but carry the two different messages. -/
theorem login_merged_status_distinct_messages_witness :
    (login false [(⟨1, none, "a@x.com", hashPw "secret1"⟩ : User)] "b@x.com" "secret1").1.status
      = 401 ∧
    (login false [(⟨1, none, "a@x.com", hashPw "secret1"⟩ : User)] "a@x.com" "wrong12").1.status
      = 401 ∧
    (login false [(⟨1, none, "a@x.com", hashPw "secret1"⟩ : User)] "b@x.com" "secret1").1.cookies
      = [] ∧
    (login false [(⟨1, none, "a@x.com", hashPw "secret1"⟩ : User)] "a@x.com" "wrong12").1.cookies
      = [] ∧
    (login false [(⟨1, none, "a@x.com", hashPw "secret1"⟩ : User)] "b@x.com" "secret1").1.body
      = .err "Invalid credentials or user not found." ∧
    (login false [(⟨1, none, "a@x.com", hashPw "secret1"⟩ : User)] "a@x.com" "wrong12").1.body
      = .err "Invalid credentials." :=
  login_merged_status_distinct_messages false _ _ ⟨1, none, "a@x.com", hashPw "secret1"⟩
    "b@x.com" "secret1" "a@x.com" "wrong12" (by decide) (by decide) (by decide)

/-- C7: every string in a login or register response body is one of the
five fixed literal messages; no bcrypt hash is among those literals (so
the stored `password_hash` never appears in a body), and whenever the
plaintext password is not itself one of the literals it does not appear
in a body either. -/
theorem responses_never_expose_password_hash
    (production : Bool) (store : List User) (name : Option String)
    (email password : String) :
    loginBodyMessage (login production store email password).1.body ∈ fixedMessages ∧
    (∀ s ∈ registerBodyStrings (register store name email password).1.body,
      s ∈ fixedMessages) ∧
    (∀ q : String, hashPw q ∉ fixedMessages) ∧
    (password ∉ fixedMessages →
      loginBodyMessage (login production store email password).1.body ≠ password ∧
      ∀ s ∈ registerBodyStrings (register store name email password).1.body,
        s ≠ password) := by
  have hlog : loginBodyMessage (login production store email password).1.body
      ∈ fixedMessages := by
    rcases login_cases production store email password with h | h | ⟨u, h⟩ <;>
      simp [h, loginBodyMessage, fixedMessages]
  have hreg : ∀ s ∈ registerBodyStrings (register store name email password).1.body,
      s ∈ fixedMessages := by
    rcases register_cases store name email password with h | h | h <;>
      simp [h, registerBodyStrings, fixedMessages]
  refine ⟨hlog, hreg, hashPw_not_fixed_message, fun hp => ⟨?_, ?_⟩⟩
  · intro he
    exact hp (he ▸ hlog)
  · intro s hs he
    exact hp (he ▸ hreg s hs)

/-- C7 witness: on a concrete request the login message is a fixed
literal, the register body exposes no string beyond the literals, the
hash of `secret1` is not among them, and the plaintext `secret1` is not
the returned message. -/
theorem responses_never_expose_password_hash_witness :
    loginBodyMessage (login false [] "a@x.com" "secret1").1.body ∈ fixedMessages ∧
    (∀ s ∈ registerBodyStrings (register [] none "a@x.com" "secret1").1.body,
      s ∈ fixedMessages) ∧
    hashPw "secret1" ∉ fixedMessages ∧
    loginBodyMessage (login false [] "a@x.com" "secret1").1.body ≠ "secret1" := by
  have h := responses_never_expose_password_hash false [] none "a@x.com" "secret1"
  exact ⟨h.1, h.2.1, h.2.2.1 "secret1", (h.2.2.2 (by decide)).1⟩

/-- C8: comparing a plaintext against its own hash always matches, and
comparing any different plaintext against that hash never matches. -/
theorem hash_compare_roundtrip (p q : String) :
    comparePw p (hashPw p) = true ∧ (q ≠ p → comparePw q (hashPw p) = false) :=
  ⟨comparePw_hash_self p, fun h => comparePw_hash_ne p q h⟩

/-- C8 witness: `secret1` matches its own hash and `wrong12` does not. -/
theorem hash_compare_roundtrip_witness :
    comparePw "secret1" (hashPw "secret1") = true ∧
    comparePw "wrong12" (hashPw "secret1") = false :=
  ⟨(hash_compare_roundtrip "secret1" "wrong12").1,
    (hash_compare_roundtrip "secret1" "wrong12").2 (by decide)⟩

/-- C9: `login` never mutates the user store: for every input and store
state the store after the call equals the store before it. -/
theorem login_never_mutates_store (production : Bool) (store : List User)
    (email password : String) :
    (login production store email password).2 = store := by
  unfold login
  rcases selectSingleByEmail store email with ⟨data, error⟩
  cases error <;> cases data <;> simp
  rcases comparePw password _ with _ | _ <;> simp

/-- C10: the duplicate check of `register` discards the lookup's error
field: the outcome depends only on the lookup's `data`; whenever `data` is
absent — which includes every failed lookup — the handler hashes the
password and attempts the insert, and only a lookup that yields a row
gives the 409 `DuplicateUser` rejection. -/
theorem register_discards_lookup_error (store : List User) (name : Option String)
    (email password : String) :
    register store name email password =
      registerCore (selectSingleByEmail store email) store name email password ∧
    (∀ l1 l2 : SupaSingle User, l1.data = l2.data →
      registerCore l1 store name email password =
        registerCore l2 store name email password) ∧
    (∀ l : SupaSingle User, l.data = none →
      (if store.any (fun u => u.email == email) then
        registerCore l store name email password =
          (⟨409, .err "Failed to create user."⟩, store)
      else
        registerCore l store name email password =
          (⟨201, .created (freshId store)⟩,
            store ++ [⟨freshId store, name, email, hashPw password⟩]))) ∧
    (∀ (l : SupaSingle User) (u : User), l.data = some u →
      registerCore l store name email password =
        (⟨409, .err "User with this email already exists."⟩, store)) := by
  refine ⟨rfl, ?_, ?_, ?_⟩
  · intro l1 l2 h
    simp only [registerCore, h]
  · intro l hl
    by_cases hany : store.any (fun u => u.email == email) = true
    · simp [registerCore, hl, insertUser, hany]
    · simp [registerCore, hl, insertUser, hany]
  · intro l u hl
    simp [registerCore, hl]

/-- C10 witness: a lookup that failed with an error and no row still leads
to the hash-and-insert path, creating the user. -/
theorem register_discards_lookup_error_witness :
    registerCore ⟨none, some "connection reset"⟩ [] none "a@x.com" "secret1" =
      (⟨201, .created (freshId [])⟩,
        [] ++ [(⟨freshId [], none, "a@x.com", hashPw "secret1"⟩ : User)]) := by
  have h := (register_discards_lookup_error [] none "a@x.com" "secret1").2.2.1
    ⟨none, some "connection reset"⟩ rfl
  simpa using h
